import Mathlib

/-!
Verification model of `src/gemini.js` (the "The Current" news page with a
Firestore-backed page-view counter and a mock editor login).

The React component is embedded as an explicit state machine:

* `AppState` holds the component's `useState` hooks plus bookkeeping that the
  React runtime keeps implicitly (last effect dependencies, whether the
  `onAuthStateChanged` listener is registered, whether `attemptAuth` was
  called and whether its promise has settled) and observable output
  (issued Firestore writes, console-error log, toasts).
* `mount` runs the initialisation effect (lines 55-95 of the source) and the
  first render's effect pass, exactly following React semantics: effect
  bodies of render 1 see the initial state, the `setState` calls queued by
  the init effect take hold at render 2, and the two dependent effects
  (`trackPageView`, the `onSnapshot` subscription — both with dependency
  list `[isAuthReady, analyticsDocPath]`) re-run iff those dependencies
  changed.
* `handleEvent` delivers the asynchronous callbacks: `onAuthStateChanged`
  pushes, settlement of the one-shot `attemptAuth` promise, `onSnapshot`
  pushes and errors, and the `handleLogin` / `handleSignOut` UI handlers.
  Only an auth-state push can change an effect dependency, so only it
  re-runs the effect pass.
-/

namespace CurrentVibes

/-- A JavaScript value as far as the counter subsystem can observe one:
numbers, strings, booleans, `undefined` and `null`.  `undef` also models a
missing object field (`data.count` when `count` is absent). -/
inductive JsValue where
  | num (n : Int)
  | str (s : String)
  | boolV (b : Bool)
  | undef
  | nullV
deriving DecidableEq, Repr

/-- JavaScript truthiness of a `JsValue` (`0`, `""`, `false`, `undefined`,
`null` are falsy). -/
def JsValue.truthy : JsValue → Bool
  | JsValue.num n => n ≠ 0
  | JsValue.str s => s ≠ ""
  | JsValue.boolV b => b
  | JsValue.undef => false
  | JsValue.nullV => false

/-- JavaScript `a || b`. -/
def jsOr (a b : JsValue) : JsValue := if a.truthy then a else b

/-- The fields of the analytics counter document that the program touches:
just `count`.  `count = JsValue.undef` models a document without the field. -/
structure DocData where
  count : JsValue
deriving DecidableEq, Repr

/-- A Firestore write operation issued by the program.  The only write in
the source is `setDoc(path, \x7b count: increment(1) \x7d, \x7b merge: true \x7d)`
(line 106), a server-side field transform, represented as data rather than
as a client read-modify-write. -/
inductive WriteOp where
  | setMergeIncrementCount (delta : Int)
deriving DecidableEq, Repr

/-- Firestore semantics of the `increment(delta)` field transform under a
merge write: if the document or the field is missing, or the field is not
numeric, the field is set to `delta`; otherwise it is set to the old value
plus `delta`.  A missing document is created by the merge write. -/
def applyIncrement (delta : Int) : Option DocData → DocData
  | none => { count := JsValue.num delta }
  | some d =>
    match d.count with
    | JsValue.num n => { count := JsValue.num (n + delta) }
    | _ => { count := JsValue.num delta }

/-- Apply an issued write operation to a document state (`none` = the
document does not exist). -/
def applyWrite : WriteOp → Option DocData → Option DocData
  | WriteOp.setMergeIncrementCount delta, d => some (applyIncrement delta d)

/-- The numeric value of the `count` field, when the document exists and the
field is numeric. -/
def docCount : Option DocData → Option Int
  | none => none
  | some d =>
    match d.count with
    | JsValue.num n => some n
    | _ => none

/-- The ambient configuration of the page (lines 7-9 of the source):
whether `__firebase_config` carries an `apiKey`, the optional
`__initial_auth_token`, and the optional `__app_id`. -/
structure Config where
  apiKeyPresent : Bool
  initialAuthToken : Option String
  appIdInjected : Option String
deriving DecidableEq, Repr

/-- `const appId = typeof __app_id !== 'undefined' ? __app_id : 'default-app-id'`. -/
def appId (c : Config) : String := (c.appIdInjected).getD "default-app-id"

/-- `analyticsDocPath` (lines 49-52): `db ? doc(db, ...) : null`, memoised on
`[db]`.  Modelled as the document path string when the Firestore handle is
present, `none` otherwise. -/
def analyticsDocPath (c : Config) (dbPresent : Bool) : Option String :=
  if dbPresent then
    some ("/artifacts/" ++ appId c ++ "/public/data/analytics/olhs_current_views")
  else none

/-- Console-error/log lines the counter subsystem can emit. -/
inductive LogMsg where
  | configMissing
  | authInitFailed
  | snapshotListenFailed
deriving DecidableEq, Repr

/-- `const MOCK_ADMIN_EMAIL = "editor@thecurrent.edu"` (line 12). -/
def MOCK_ADMIN_EMAIL : String := "editor@thecurrent.edu"

/-- `const MOCK_ADMIN_PASSWORD = "password123"` (line 13). -/
def MOCK_ADMIN_PASSWORD : String := "password123"

/-- The component state: the `useState` hooks of `App` that the counter
subsystem reads or writes, plus runtime bookkeeping (see module comment). -/
structure AppState where
  db : Bool
  auth : Bool
  userId : Option String
  isAuthReady : Bool
  viewCount : JsValue
  showLogin : Bool
  isLoggingIn : Bool
  listenerRegistered : Bool
  authAttempted : Bool
  authSettled : Bool
  subActive : Bool
  lastDeps : Bool × Bool
  writes : List WriteOp
  log : List LogMsg
  toasts : List String
  trackGuardSkips : Nat
deriving DecidableEq, Repr

/-- The initial render's state (the `useState` initial values). -/
def initialState : AppState :=
  { db := false
    auth := false
    userId := none
    isAuthReady := false
    viewCount := JsValue.num 0
    showLogin := false
    isLoggingIn := false
    listenerRegistered := false
    authAttempted := false
    authSettled := false
    subActive := false
    lastDeps := (false, false)
    writes := []
    log := []
    toasts := []
    trackGuardSkips := 0 }

/-- The dependency list `[isAuthReady, analyticsDocPath]` of effects 2 and 3;
the path's identity changes exactly when `db` changes (it is memoised on
`[db]`). -/
def currentDeps (s : AppState) : Bool × Bool := (s.isAuthReady, s.db)

/-- Body of the `trackPageView` effect (lines 99-114): return at the guard
when auth is not ready or the path is `null`, otherwise issue the
merge-increment write.  The guard-return emits no log; the ghost counter
`trackGuardSkips` records that the skip happened. -/
def runTrackEffect (c : Config) (s : AppState) : AppState :=
  if s.isAuthReady = false ∨ analyticsDocPath c s.db = none then
    { s with trackGuardSkips := s.trackGuardSkips + 1 }
  else
    { s with writes := s.writes ++ [WriteOp.setMergeIncrementCount 1] }

/-- Body of the subscription effect (lines 117-135) together with the
cleanup of its previous run: the old subscription is released, then a new
one is opened iff the guard passes. -/
def runSubEffect (c : Config) (s : AppState) : AppState :=
  let s1 := { s with subActive := false }
  if s1.isAuthReady = false ∨ analyticsDocPath c s1.db = none then s1
  else { s1 with subActive := true }

/-- One React effect pass for effects 2 and 3: they re-run exactly when
their dependency list `[isAuthReady, analyticsDocPath]` changed since the
last run. -/
def runEffects (c : Config) (s : AppState) : AppState :=
  if currentDeps s = s.lastDeps then s
  else
    let s1 := runTrackEffect c s
    let s2 := runSubEffect c s1
    { s2 with lastDeps := currentDeps s2 }

/-- Body of the initialisation effect (lines 55-95): with no `apiKey`, log
the configuration error and set `isAuthReady := true`; otherwise create the
Firestore and Auth handles, register the `onAuthStateChanged` listener and
start the one-shot `attemptAuth`. -/
def runInitEffect (c : Config) (s : AppState) : AppState :=
  if c.apiKeyPresent = false then
    { s with log := s.log ++ [LogMsg.configMissing], isAuthReady := true }
  else
    { s with db := true, auth := true, listenerRegistered := true, authAttempted := true }

/-- Mounting the component: render 1, then the first effect pass (effect 1's
body, then effects 2 and 3 whose first run sees render 1's state — both
return at their guards, the track effect counting one skip), then render 2
with effect 1's queued state updates, re-running the dependent effects if
their dependencies changed. -/
def mount (c : Config) : AppState :=
  let s1 := runInitEffect c initialState
  let s2 := { s1 with trackGuardSkips := s1.trackGuardSkips + 1, lastDeps := (false, false) }
  runEffects c s2

/-- The asynchronous events the environment can deliver after mount. -/
inductive Event where
  | authCallback (user : Option String)
  | authSettleOk
  | authSettleErr
  | snapshotPush (snap : Option DocData)
  | snapshotFail
  | loginSubmit (email password : String)
  | signOutClick
deriving DecidableEq, Repr

/-- The `onSnapshot` callback's new mirror value (lines 120-129):
`data.count || 0` when the document exists, `0` otherwise. -/
def snapshotMirror (snap : Option DocData) : JsValue :=
  match snap with
  | some d => jsOr d.count (JsValue.num 0)
  | none => JsValue.num 0

/-- Deliver one asynchronous event.

* `authCallback u`: the `onAuthStateChanged` push (lines 69-77) — sets
  `userId` and marks auth ready, then the effect pass runs (this is the only
  event that can change an effect dependency).  Firebase may deliver the
  initial push (with `user = null`) while the `attemptAuth` promise is still
  pending.
* `authSettleOk` / `authSettleErr`: settlement of the one-shot `attemptAuth`
  promise (lines 80-92); a rejection logs the auth error.  A promise settles
  at most once, and only if it was started.
* `snapshotPush` / `snapshotFail`: the subscription callbacks (lines
  120-132), delivered only while a subscription is open.
* `loginSubmit` / `signOutClick`: the `handleLogin` (141-167) and
  `handleSignOut` (169-179) handlers.  Neither changes an effect
  dependency, so no effect re-runs. -/
def handleEvent (c : Config) (s : AppState) : Event → AppState
  | Event.authCallback u =>
    if s.listenerRegistered = true then
      runEffects c { s with userId := u, isAuthReady := true }
    else s
  | Event.authSettleOk =>
    if s.authAttempted = true ∧ s.authSettled = false then
      { s with authSettled := true }
    else s
  | Event.authSettleErr =>
    if s.authAttempted = true ∧ s.authSettled = false then
      { s with authSettled := true, log := s.log ++ [LogMsg.authInitFailed] }
    else s
  | Event.snapshotPush snap =>
    if s.subActive = true then
      { s with viewCount := snapshotMirror snap }
    else s
  | Event.snapshotFail =>
    if s.subActive = true then
      { s with log := s.log ++ [LogMsg.snapshotListenFailed] }
    else s
  | Event.loginSubmit email password =>
    if s.isLoggingIn = true ∨ s.auth = false then s
    else if email ≠ MOCK_ADMIN_EMAIL ∨ password ≠ MOCK_ADMIN_PASSWORD then
      { s with toasts := s.toasts ++ ["Invalid credentials"] }
    else
      { s with toasts := s.toasts ++ ["Admin login successful"], showLogin := false }
  | Event.signOutClick =>
    if s.auth = false then s
    else
      { s with toasts := s.toasts ++ ["Signed out successfully. Viewing as public."],
               showLogin := false }

/-- Run the component: mount, then deliver a sequence of events. -/
def run (c : Config) (es : List Event) : AppState :=
  es.foldl (handleEvent c) (mount c)

/-- `const isLoggedIn = !!userId` (line 183). -/
def isLoggedIn (s : AppState) : Bool := s.userId.isSome

/-- `const isAdmin = isLoggedIn` (line 184). -/
def isAdmin (s : AppState) : Bool := isLoggedIn s

/-- The combined gating condition of the two dependent effects: auth ready
and the analytics document path resolvable. -/
def gateHolds (c : Config) (s : AppState) : Bool :=
  s.isAuthReady && (analyticsDocPath c s.db).isSome

/-! ### Basic facts about the path and the effect bodies -/

@[simp] theorem analyticsDocPath_none_iff (c : Config) (b : Bool) :
    analyticsDocPath c b = none ↔ b = false := by
  cases b <;> simp [analyticsDocPath]

@[simp] theorem analyticsDocPath_isSome (c : Config) (b : Bool) :
    (analyticsDocPath c b).isSome = b := by
  cases b <;> simp [analyticsDocPath]

theorem gateHolds_eq (c : Config) (s : AppState) :
    gateHolds c s = (s.isAuthReady && s.db) := by
  simp [gateHolds]

@[simp] theorem runTrackEffect_db (c : Config) (s : AppState) :
    (runTrackEffect c s).db = s.db := by
  unfold runTrackEffect; split <;> rfl

@[simp] theorem runTrackEffect_isAuthReady (c : Config) (s : AppState) :
    (runTrackEffect c s).isAuthReady = s.isAuthReady := by
  unfold runTrackEffect; split <;> rfl

@[simp] theorem runTrackEffect_userId (c : Config) (s : AppState) :
    (runTrackEffect c s).userId = s.userId := by
  unfold runTrackEffect; split <;> rfl

@[simp] theorem runTrackEffect_viewCount (c : Config) (s : AppState) :
    (runTrackEffect c s).viewCount = s.viewCount := by
  unfold runTrackEffect; split <;> rfl

@[simp] theorem runTrackEffect_log (c : Config) (s : AppState) :
    (runTrackEffect c s).log = s.log := by
  unfold runTrackEffect; split <;> rfl

@[simp] theorem runTrackEffect_subActive (c : Config) (s : AppState) :
    (runTrackEffect c s).subActive = s.subActive := by
  unfold runTrackEffect; split <;> rfl

@[simp] theorem runTrackEffect_lastDeps (c : Config) (s : AppState) :
    (runTrackEffect c s).lastDeps = s.lastDeps := by
  unfold runTrackEffect; split <;> rfl

@[simp] theorem runTrackEffect_auth (c : Config) (s : AppState) :
    (runTrackEffect c s).auth = s.auth := by
  unfold runTrackEffect; split <;> rfl

@[simp] theorem runTrackEffect_listenerRegistered (c : Config) (s : AppState) :
    (runTrackEffect c s).listenerRegistered = s.listenerRegistered := by
  unfold runTrackEffect; split <;> rfl

@[simp] theorem runTrackEffect_authAttempted (c : Config) (s : AppState) :
    (runTrackEffect c s).authAttempted = s.authAttempted := by
  unfold runTrackEffect; split <;> rfl

@[simp] theorem runTrackEffect_authSettled (c : Config) (s : AppState) :
    (runTrackEffect c s).authSettled = s.authSettled := by
  unfold runTrackEffect; split <;> rfl

/-- The track effect issues the single increment write when its guard
passes, and is silent (one counted skip, no write, no log) otherwise. -/
theorem runTrackEffect_writes (c : Config) (s : AppState) :
    (runTrackEffect c s).writes =
      if s.isAuthReady && s.db then s.writes ++ [WriteOp.setMergeIncrementCount 1]
      else s.writes := by
  unfold runTrackEffect
  cases hr : s.isAuthReady <;> cases hdb : s.db <;> simp [hr, hdb]

@[simp] theorem runSubEffect_db (c : Config) (s : AppState) :
    (runSubEffect c s).db = s.db := by
  simp only [runSubEffect]; split <;> rfl

@[simp] theorem runSubEffect_isAuthReady (c : Config) (s : AppState) :
    (runSubEffect c s).isAuthReady = s.isAuthReady := by
  simp only [runSubEffect]; split <;> rfl

@[simp] theorem runSubEffect_userId (c : Config) (s : AppState) :
    (runSubEffect c s).userId = s.userId := by
  simp only [runSubEffect]; split <;> rfl

@[simp] theorem runSubEffect_viewCount (c : Config) (s : AppState) :
    (runSubEffect c s).viewCount = s.viewCount := by
  simp only [runSubEffect]; split <;> rfl

@[simp] theorem runSubEffect_log (c : Config) (s : AppState) :
    (runSubEffect c s).log = s.log := by
  simp only [runSubEffect]; split <;> rfl

@[simp] theorem runSubEffect_writes (c : Config) (s : AppState) :
    (runSubEffect c s).writes = s.writes := by
  simp only [runSubEffect]; split <;> rfl

@[simp] theorem runSubEffect_lastDeps (c : Config) (s : AppState) :
    (runSubEffect c s).lastDeps = s.lastDeps := by
  simp only [runSubEffect]; split <;> rfl

@[simp] theorem runSubEffect_auth (c : Config) (s : AppState) :
    (runSubEffect c s).auth = s.auth := by
  simp only [runSubEffect]; split <;> rfl

@[simp] theorem runSubEffect_listenerRegistered (c : Config) (s : AppState) :
    (runSubEffect c s).listenerRegistered = s.listenerRegistered := by
  simp only [runSubEffect]; split <;> rfl

@[simp] theorem runSubEffect_authAttempted (c : Config) (s : AppState) :
    (runSubEffect c s).authAttempted = s.authAttempted := by
  simp only [runSubEffect]; split <;> rfl

@[simp] theorem runSubEffect_authSettled (c : Config) (s : AppState) :
    (runSubEffect c s).authSettled = s.authSettled := by
  simp only [runSubEffect]; split <;> rfl

/-- The subscription effect leaves a subscription open exactly when its
guard passes. -/
theorem runSubEffect_subActive (c : Config) (s : AppState) :
    (runSubEffect c s).subActive = (s.isAuthReady && s.db) := by
  unfold runSubEffect
  cases hr : s.isAuthReady <;> cases hdb : s.db <;> simp [hr, hdb]

@[simp] theorem runEffects_db (c : Config) (s : AppState) :
    (runEffects c s).db = s.db := by
  unfold runEffects; split <;> simp

@[simp] theorem runEffects_isAuthReady (c : Config) (s : AppState) :
    (runEffects c s).isAuthReady = s.isAuthReady := by
  unfold runEffects; split <;> simp

@[simp] theorem runEffects_userId (c : Config) (s : AppState) :
    (runEffects c s).userId = s.userId := by
  unfold runEffects; split <;> simp

@[simp] theorem runEffects_viewCount (c : Config) (s : AppState) :
    (runEffects c s).viewCount = s.viewCount := by
  unfold runEffects; split <;> simp

@[simp] theorem runEffects_log (c : Config) (s : AppState) :
    (runEffects c s).log = s.log := by
  unfold runEffects; split <;> simp

@[simp] theorem runEffects_auth (c : Config) (s : AppState) :
    (runEffects c s).auth = s.auth := by
  unfold runEffects; split <;> simp

@[simp] theorem runEffects_listenerRegistered (c : Config) (s : AppState) :
    (runEffects c s).listenerRegistered = s.listenerRegistered := by
  unfold runEffects; split <;> simp

@[simp] theorem runEffects_authAttempted (c : Config) (s : AppState) :
    (runEffects c s).authAttempted = s.authAttempted := by
  unfold runEffects; split <;> simp

@[simp] theorem runEffects_authSettled (c : Config) (s : AppState) :
    (runEffects c s).authSettled = s.authSettled := by
  unfold runEffects; split <;> simp

/-- When the effect dependencies did not change since the last pass, no
effect re-runs. -/
theorem runEffects_id (c : Config) (s : AppState)
    (h : currentDeps s = s.lastDeps) : runEffects c s = s := by
  unfold runEffects; rw [if_pos h]

/-- When the effect dependencies changed, both dependent effects re-run and
the recorded dependencies are refreshed. -/
theorem runEffects_of_ne (c : Config) (s : AppState)
    (h : currentDeps s ≠ s.lastDeps) :
    runEffects c s =
      { runSubEffect c (runTrackEffect c s) with
          lastDeps := currentDeps (runSubEffect c (runTrackEffect c s)) } := by
  unfold runEffects; rw [if_neg h]

/-! ### Frame lemmas for event delivery -/

theorem handleEvent_db (c : Config) (s : AppState) (e : Event) :
    (handleEvent c s e).db = s.db := by
  cases e <;> simp only [handleEvent] <;> split_ifs <;> simp

theorem handleEvent_auth (c : Config) (s : AppState) (e : Event) :
    (handleEvent c s e).auth = s.auth := by
  cases e <;> simp only [handleEvent] <;> split_ifs <;> simp

theorem handleEvent_listenerRegistered (c : Config) (s : AppState) (e : Event) :
    (handleEvent c s e).listenerRegistered = s.listenerRegistered := by
  cases e <;> simp only [handleEvent] <;> split_ifs <;> simp

theorem handleEvent_authAttempted (c : Config) (s : AppState) (e : Event) :
    (handleEvent c s e).authAttempted = s.authAttempted := by
  cases e <;> simp only [handleEvent] <;> split_ifs <;> simp

/-- `isAuthReady` is never reset: every event preserves it once true. -/
theorem handleEvent_ready_mono (c : Config) (s : AppState) (e : Event)
    (h : s.isAuthReady = true) : (handleEvent c s e).isAuthReady = true := by
  cases e <;> simp only [handleEvent] <;> split_ifs <;> simp [h]

/-- The console log is append-only across events. -/
theorem handleEvent_log_mono (c : Config) (s : AppState) (e : Event)
    (m : LogMsg) (h : m ∈ s.log) : m ∈ (handleEvent c s e).log := by
  cases e <;> simp only [handleEvent] <;> split_ifs <;> simp [h]

/-- `userId` is written only by the auth-state listener. -/
theorem handleEvent_userId (c : Config) (s : AppState) (e : Event) :
    (handleEvent c s e).userId =
      match e with
      | Event.authCallback u => if s.listenerRegistered = true then u else s.userId
      | _ => s.userId := by
  cases e <;> simp only [handleEvent] <;> split_ifs <;> simp

/-! ### The reachability invariant -/

/-- Invariant satisfied by every state reachable from `mount c`:
the handles, the listener and the one-shot attempt exist iff the
configuration carried an `apiKey`; the recorded effect dependencies agree
with the current ones; the subscription is open and the single increment
write has been issued exactly when the combined gate
(`isAuthReady` and path resolvable) holds; and with a missing `apiKey` the
subsystem is permanently idle: ready, mirror 0, only the configuration
error logged, no identity. -/
structure Inv (c : Config) (s : AppState) : Prop where
  db_eq : s.db = c.apiKeyPresent
  auth_eq : s.auth = c.apiKeyPresent
  listener_eq : s.listenerRegistered = c.apiKeyPresent
  attempted_eq : s.authAttempted = c.apiKeyPresent
  deps_sync : s.lastDeps = (s.isAuthReady, s.db)
  sub_eq : s.subActive = (s.isAuthReady && s.db)
  writes_eq : s.writes =
    if s.isAuthReady && s.db then [WriteOp.setMergeIncrementCount 1] else []
  no_config : c.apiKeyPresent = false →
    s.isAuthReady = true ∧ s.viewCount = JsValue.num 0 ∧
    s.log = [LogMsg.configMissing] ∧ s.userId = none

theorem inv_mount (c : Config) : Inv c (mount c) := by
  cases hc : c.apiKeyPresent <;>
    constructor <;>
      simp [mount, runInitEffect, runEffects, runTrackEffect, runSubEffect,
        initialState, currentDeps, analyticsDocPath, hc]

theorem inv_step (c : Config) (s : AppState) (e : Event) (h : Inv c s) :
    Inv c (handleEvent c s e) := by
  obtain ⟨hdb, hauth, hlis, hatt, hdeps, hsub, hwr, hcfg⟩ := h
  cases e with
  | authCallback u =>
    simp only [handleEvent]
    by_cases hl : s.listenerRegistered = true
    · rw [if_pos hl]
      have hkey : c.apiKeyPresent = true := by rw [← hlis]; exact hl
      have hdb' : s.db = true := by rw [hdb, hkey]
      by_cases hr : s.isAuthReady = true
      · rw [runEffects_id]
        · exact ⟨hdb, hauth, hlis, hatt, by simp [hdeps, hr], by simp [hsub, hr],
            by simp [hwr, hr], by simp [hkey]⟩
        · simp [currentDeps, hdeps, hr]
      · have hr' : s.isAuthReady = false := by
          cases hb : s.isAuthReady
          · rfl
          · exact absurd hb hr
        rw [runEffects_of_ne]
        · constructor <;>
            simp [runTrackEffect_writes, runSubEffect_subActive, currentDeps,
              hdb, hauth, hlis, hatt, hdb', hr', hkey, hwr]
        · simp [currentDeps, hdeps, hr']
    · rw [if_neg hl]
      exact ⟨hdb, hauth, hlis, hatt, hdeps, hsub, hwr, hcfg⟩
  | authSettleOk =>
    simp only [handleEvent]
    split
    · exact ⟨hdb, hauth, hlis, hatt, hdeps, hsub, hwr, by
        intro hk; simpa using hcfg hk⟩
    · exact ⟨hdb, hauth, hlis, hatt, hdeps, hsub, hwr, hcfg⟩
  | authSettleErr =>
    simp only [handleEvent]
    split
    · next hg =>
      refine ⟨hdb, hauth, hlis, hatt, hdeps, hsub, hwr, ?_⟩
      intro hk
      rw [hatt, hk] at hg
      exact absurd hg.1 (by simp)
    · exact ⟨hdb, hauth, hlis, hatt, hdeps, hsub, hwr, hcfg⟩
  | snapshotPush snap =>
    simp only [handleEvent]
    split
    · next hg =>
      refine ⟨hdb, hauth, hlis, hatt, hdeps, by simp [hsub], by simp [hwr], ?_⟩
      intro hk
      rw [hsub, hdb, hk] at hg
      simp at hg
    · exact ⟨hdb, hauth, hlis, hatt, hdeps, hsub, hwr, hcfg⟩
  | snapshotFail =>
    simp only [handleEvent]
    split
    · next hg =>
      refine ⟨hdb, hauth, hlis, hatt, hdeps, by simp [hsub], by simp [hwr], ?_⟩
      intro hk
      rw [hsub, hdb, hk] at hg
      simp at hg
    · exact ⟨hdb, hauth, hlis, hatt, hdeps, hsub, hwr, hcfg⟩
  | loginSubmit email password =>
    simp only [handleEvent]
    split
    · exact ⟨hdb, hauth, hlis, hatt, hdeps, hsub, hwr, hcfg⟩
    · split <;>
        exact ⟨hdb, hauth, hlis, hatt, hdeps, by simp [hsub], by simp [hwr], by
          intro hk; simpa using hcfg hk⟩
  | signOutClick =>
    simp only [handleEvent]
    split
    · exact ⟨hdb, hauth, hlis, hatt, hdeps, hsub, hwr, hcfg⟩
    · exact ⟨hdb, hauth, hlis, hatt, hdeps, by simp [hsub], by simp [hwr], by
        intro hk; simpa using hcfg hk⟩

theorem inv_foldl (c : Config) (es : List Event) (s : AppState) (h : Inv c s) :
    Inv c (es.foldl (handleEvent c) s) := by
  induction es generalizing s with
  | nil => exact h
  | cons e rest ih => exact ih _ (inv_step c s e h)

/-- Every reachable state of the component satisfies the invariant. -/
theorem inv_run (c : Config) (es : List Event) : Inv c (run c es) :=
  inv_foldl c es (mount c) (inv_mount c)

/-! ### Trace-level lemmas -/

theorem foldl_ready_mono (c : Config) (es : List Event) (s : AppState)
    (h : s.isAuthReady = true) :
    (es.foldl (handleEvent c) s).isAuthReady = true := by
  induction es generalizing s with
  | nil => exact h
  | cons e rest ih => exact ih _ (handleEvent_ready_mono c s e h)

theorem foldl_log_mono (c : Config) (es : List Event) (s : AppState) (m : LogMsg)
    (h : m ∈ s.log) : m ∈ (es.foldl (handleEvent c) s).log := by
  induction es generalizing s with
  | nil => exact h
  | cons e rest ih => exact ih _ (handleEvent_log_mono c s e m h)

theorem foldl_db (c : Config) (es : List Event) (s : AppState) :
    (es.foldl (handleEvent c) s).db = s.db := by
  induction es generalizing s with
  | nil => rfl
  | cons e rest ih => rw [List.foldl_cons, ih, handleEvent_db]

/-- The combined gate (auth ready and path resolvable) is monotone: once it
holds it holds in every later state. -/
theorem handleEvent_gate_mono (c : Config) (s : AppState) (e : Event)
    (h : (s.isAuthReady && s.db) = true) :
    ((handleEvent c s e).isAuthReady && (handleEvent c s e).db) = true := by
  simp only [Bool.and_eq_true] at h ⊢
  refine ⟨handleEvent_ready_mono c s e h.1, ?_⟩
  rw [handleEvent_db]; exact h.2

theorem foldl_gate_mono (c : Config) (es : List Event) (s : AppState)
    (h : (s.isAuthReady && s.db) = true) :
    ((es.foldl (handleEvent c) s).isAuthReady &&
      (es.foldl (handleEvent c) s).db) = true := by
  induction es generalizing s with
  | nil => exact h
  | cons e rest ih => exact ih _ (handleEvent_gate_mono c s e h)

/-- Splitting a run at position `n`. -/
theorem run_take_drop (c : Config) (es : List Event) (n : Nat) :
    run c es = (es.drop n).foldl (handleEvent c) (run c (es.take n)) := by
  conv_lhs => rw [← List.take_append_drop n es]
  unfold run
  rw [List.foldl_append]

theorem mount_userId (c : Config) : (mount c).userId = none := by
  cases hc : c.apiKeyPresent <;>
    simp [mount, runInitEffect, runEffects, runTrackEffect, runSubEffect,
      initialState, currentDeps, analyticsDocPath, hc]

theorem mount_authSettled (c : Config) : (mount c).authSettled = false := by
  cases hc : c.apiKeyPresent <;>
    simp [mount, runInitEffect, runEffects, runTrackEffect, runSubEffect,
      initialState, currentDeps, analyticsDocPath, hc]

/-- Events other than the settlement of the one-shot sign-in promise do not
change whether the promise has settled. -/
theorem handleEvent_authSettled_other (c : Config) (s : AppState) (e : Event)
    (h1 : e ≠ Event.authSettleOk) (h2 : e ≠ Event.authSettleErr) :
    (handleEvent c s e).authSettled = s.authSettled := by
  cases e with
  | authSettleOk => exact absurd rfl h1
  | authSettleErr => exact absurd rfl h2
  | authCallback u => simp only [handleEvent]; split_ifs <;> simp
  | snapshotPush snap => simp only [handleEvent]; split_ifs <;> simp
  | snapshotFail => simp only [handleEvent]; split_ifs <;> simp
  | loginSubmit email password => simp only [handleEvent]; split_ifs <;> simp
  | signOutClick => simp only [handleEvent]; split_ifs <;> simp

/-- If no auth push ever delivers a user, the session identity stays
absent. -/
theorem foldl_userId_none (c : Config) (es : List Event) :
    ∀ s : AppState, (∀ u : String, Event.authCallback (some u) ∉ es) →
    s.userId = none → (es.foldl (handleEvent c) s).userId = none := by
  induction es with
  | nil => intro s _ h; exact h
  | cons e rest ih =>
    intro s hnone h
    have hrest : ∀ u : String, Event.authCallback (some u) ∉ rest := by
      intro u hu
      exact hnone u (List.mem_cons_of_mem _ hu)
    have hstep : (handleEvent c s e).userId = none := by
      cases e with
      | authCallback u =>
        cases u with
        | none => simp only [handleEvent]; split_ifs <;> simp [h]
        | some v => exact absurd (List.mem_cons_self _ _) (hnone v)
      | authSettleOk => simp only [handleEvent]; split_ifs <;> simp [h]
      | authSettleErr => simp only [handleEvent]; split_ifs <;> simp [h]
      | snapshotPush snap => simp only [handleEvent]; split_ifs <;> simp [h]
      | snapshotFail => simp only [handleEvent]; split_ifs <;> simp [h]
      | loginSubmit email password => simp only [handleEvent]; split_ifs <;> simp [h]
      | signOutClick => simp only [handleEvent]; split_ifs <;> simp [h]
    exact ih _ hrest hstep

/-- Once the listener is registered, delivery of any auth push makes the
readiness flag true for the rest of the run. -/
theorem foldl_ready_of_callback (c : Config) (es : List Event) :
    ∀ s : AppState, s.listenerRegistered = true →
    (∃ u, Event.authCallback u ∈ es) →
    (es.foldl (handleEvent c) s).isAuthReady = true := by
  induction es with
  | nil =>
    rintro s _ ⟨u, hu⟩
    simp at hu
  | cons e rest ih =>
    rintro s hl ⟨u, hu⟩
    rcases List.mem_cons.mp hu with h1 | h1
    · have hstep : (handleEvent c s e).isAuthReady = true := by
        rw [← h1]
        simp only [handleEvent]
        rw [if_pos hl]
        simp
      exact foldl_ready_mono c rest _ hstep
    · have hl' : (handleEvent c s e).listenerRegistered = true := by
        rw [handleEvent_listenerRegistered]; exact hl
      exact ih _ hl' ⟨u, h1⟩

/-- If the one-shot sign-in was started, never resolved, and rejected at
some point of the trace, the auth initialisation error is logged. -/
theorem foldl_settleErr_logs (c : Config) (es : List Event) :
    ∀ s : AppState, s.authAttempted = true →
    (s.authSettled = true → LogMsg.authInitFailed ∈ s.log) →
    Event.authSettleOk ∉ es → Event.authSettleErr ∈ es →
    LogMsg.authInitFailed ∈ (es.foldl (handleEvent c) s).log := by
  induction es with
  | nil =>
    intro s _ _ _ herr
    simp at herr
  | cons e rest ih =>
    intro s hatt hset hok herr
    have hok' : Event.authSettleOk ∉ rest := fun hm =>
      hok (List.mem_cons_of_mem _ hm)
    have hatt' : (handleEvent c s e).authAttempted = true := by
      rw [handleEvent_authAttempted]; exact hatt
    by_cases he : e = Event.authSettleErr
    · subst he
      have hmem : LogMsg.authInitFailed ∈ (handleEvent c s Event.authSettleErr).log := by
        simp only [handleEvent]
        split
        · simp
        · next hg =>
          have hs : s.authSettled = true := by
            by_contra hns
            exact hg ⟨hatt, by simpa using hns⟩
          exact hset hs
      exact foldl_log_mono c rest _ _ hmem
    · have herr' : Event.authSettleErr ∈ rest := by
        rcases List.mem_cons.mp herr with h1 | h1
        · exact absurd h1.symm he
        · exact h1
      have hnok : e ≠ Event.authSettleOk := fun hh =>
        hok (hh ▸ List.mem_cons_self _ _)
      have hset' : (handleEvent c s e).authSettled = true →
          LogMsg.authInitFailed ∈ (handleEvent c s e).log := by
        intro hs
        rw [handleEvent_authSettled_other c s e hnok he] at hs
        exact handleEvent_log_mono c s e _ (hset hs)
      exact ih _ hatt' hset' hok' herr'

/-- Every write the component ever issues is the single atomic
increment-by-one merge write. -/
theorem mem_run_writes (c : Config) (es : List Event) (w : WriteOp)
    (hw : w ∈ (run c es).writes) : w = WriteOp.setMergeIncrementCount 1 := by
  have hInv := inv_run c es
  rw [hInv.writes_eq] at hw
  revert hw
  split
  · intro hw; simpa using hw
  · intro hw; simp at hw

/-- `handleSignOut` changes no field of the counter subsystem (it only
closes the login form and toasts; the identity change arrives later through
the auth listener). -/
theorem handleEvent_signOut_fields (c : Config) (s : AppState) :
    (handleEvent c s Event.signOutClick).userId = s.userId ∧
    (handleEvent c s Event.signOutClick).isAuthReady = s.isAuthReady ∧
    (handleEvent c s Event.signOutClick).viewCount = s.viewCount ∧
    (handleEvent c s Event.signOutClick).writes = s.writes ∧
    (handleEvent c s Event.signOutClick).subActive = s.subActive ∧
    (handleEvent c s Event.signOutClick).log = s.log ∧
    (handleEvent c s Event.signOutClick).db = s.db ∧
    (handleEvent c s Event.signOutClick).listenerRegistered = s.listenerRegistered ∧
    (handleEvent c s Event.signOutClick).lastDeps = s.lastDeps := by
  simp only [handleEvent]
  split_ifs <;> simp

/-- Effect of the `user = null` auth push after sign-out completes, on any
state `t` that agrees with a reachable ready state `s` on the
effect-relevant fields: the identity is cleared and the counter fields are
untouched (the effect dependencies did not change, so no effect re-runs). -/
theorem authCallbackNone_after (c : Config) (s t : AppState)
    (hInv : Inv c s) (hready : s.isAuthReady = true)
    (ht_db : t.db = s.db) (ht_lis : t.listenerRegistered = s.listenerRegistered)
    (ht_deps : t.lastDeps = s.lastDeps) (ht_uid : t.userId = s.userId) :
    (handleEvent c t (Event.authCallback none)).userId = none ∧
    (handleEvent c t (Event.authCallback none)).viewCount = t.viewCount ∧
    (handleEvent c t (Event.authCallback none)).writes = t.writes ∧
    (handleEvent c t (Event.authCallback none)).subActive = t.subActive := by
  simp only [handleEvent]
  by_cases hl : t.listenerRegistered = true
  · rw [if_pos hl]
    have hid : runEffects c { t with userId := none, isAuthReady := true } =
        { t with userId := none, isAuthReady := true } := by
      apply runEffects_id
      simp [currentDeps, ht_deps, hInv.deps_sync, hready, ht_db]
    rw [hid]
    exact ⟨rfl, rfl, rfl, rfl⟩
  · rw [if_neg hl]
    have hkey : c.apiKeyPresent = false := by
      cases hk : c.apiKeyPresent
      · rfl
      · exact absurd (ht_lis.trans (hInv.listener_eq.trans hk)) hl
    obtain ⟨_, _, _, huid⟩ := hInv.no_config hkey
    exact ⟨ht_uid.trans huid, rfl, rfl, rfl⟩

/-! ### The claims -/

/-- C1: for every sequence of readiness-signal changes and of teardown /
re-initialisations of the component's effects, the atomic increment write is
issued exactly once per process lifetime: at most one write ever, and
exactly one write once both gating conditions (auth readiness true and
analytics document path resolvable) have held at least once, configuration
permitting. -/
theorem c1_increment_exactly_once (c : Config) (es : List Event) :
    (run c es).writes.length ≤ 1 ∧
    ((run c es).writes.length = 1 ↔
      ∃ n, gateHolds c (run c (es.take n)) = true) := by
  have hInv := inv_run c es
  have hw := hInv.writes_eq
  constructor
  · rw [hw]
    split <;> simp
  · constructor
    · intro hlen
      refine ⟨es.length, ?_⟩
      rw [List.take_length, gateHolds_eq]
      cases hgate : ((run c es).isAuthReady && (run c es).db) with
      | false => rw [hw, hgate] at hlen; simp at hlen
      | true => rfl
    · rintro ⟨n, hn⟩
      rw [gateHolds_eq] at hn
      have hfin := foldl_gate_mono c (es.drop n) (run c (es.take n)) hn
      rw [← run_take_drop] at hfin
      rw [hw, hfin]
      simp

/-- C2, counterexample: with a configured store, Firebase may deliver the
initial `onAuthStateChanged` push (user = `null`) while the one-shot
`attemptAuth` promise is still pending; the code then sets `isAuthReady`
to true although identity resolution has not settled, contradicting
"no observer ever sees the flag true while identity resolution is still
pending". -/
theorem c2_ready_before_settle_counterexample :
    (run ⟨true, none, none⟩ [Event.authCallback none]).isAuthReady = true ∧
    (run ⟨true, none, none⟩ [Event.authCallback none]).authAttempted = true ∧
    (run ⟨true, none, none⟩ [Event.authCallback none]).authSettled = false := by
  refine ⟨rfl, rfl, rfl⟩

/-- C2 (amended): the ReadinessFlag is monotone — it transitions false→true
at most once and is never reset — and it becomes true when the auth-state
listener first fires (or already at mount when the configuration is
missing), which may happen before the one-shot identity-resolution attempt
has settled. -/
theorem c2_ready_monotone_amended (c : Config) (es : List Event) (n : Nat)
    (u : Option String) :
    ((run c (es.take n)).isAuthReady = true → (run c es).isAuthReady = true) ∧
    ((mount c).isAuthReady = !c.apiKeyPresent) ∧
    (c.apiKeyPresent = true → Event.authCallback u ∈ es →
      (run c es).isAuthReady = true) := by
  refine ⟨?_, ?_, ?_⟩
  · intro h
    rw [run_take_drop c es n]
    exact foldl_ready_mono _ _ _ h
  · cases hc : c.apiKeyPresent <;>
      simp [mount, runInitEffect, runEffects, runTrackEffect, runSubEffect,
        initialState, currentDeps, analyticsDocPath, hc]
  · intro hk hmem
    unfold run
    refine foldl_ready_of_callback c es (mount c) ?_ ⟨u, hmem⟩
    rw [(inv_mount c).listener_eq, hk]

theorem c2_ready_monotone_amended_witness :
    (run ⟨true, none, none⟩ [Event.authCallback none, Event.authSettleOk]).isAuthReady = true ∧
    (run ⟨true, none, none⟩ [Event.authCallback none]).isAuthReady = true := by
  constructor
  · exact (c2_ready_monotone_amended ⟨true, none, none⟩
      [Event.authCallback none, Event.authSettleOk] 1 none).1 (by decide)
  · exact (c2_ready_monotone_amended ⟨true, none, none⟩
      [Event.authCallback none] 1 none).2.2 rfl (List.mem_cons_self _ _)

/-- C3: every write the program issues is the merge-semantics atomic
increment of `count` by exactly 1 (a server-side transform, not a client
read-modify-write); applied to a missing document it creates it with
`count = 1`, and applied to a document with `count = n` it yields
`count = n + 1`. -/
theorem c3_write_is_atomic_increment (c : Config) (es : List Event)
    (w : WriteOp) (hw : w ∈ (run c es).writes) :
    w = WriteOp.setMergeIncrementCount 1 ∧
    applyWrite w none = some { count := JsValue.num 1 } ∧
    ∀ n : Int, applyWrite w (some { count := JsValue.num n }) =
      some { count := JsValue.num (n + 1) } := by
  have hw1 := mem_run_writes c es w hw
  subst hw1
  refine ⟨rfl, rfl, ?_⟩
  intro n
  rfl

theorem c3_write_is_atomic_increment_witness :
    applyWrite (WriteOp.setMergeIncrementCount 1) none =
      some { count := JsValue.num 1 } ∧
    applyWrite (WriteOp.setMergeIncrementCount 1) (some { count := JsValue.num 41 }) =
      some { count := JsValue.num 42 } := by
  have h := c3_write_is_atomic_increment ⟨true, none, none⟩
    [Event.authCallback none] (WriteOp.setMergeIncrementCount 1) (by decide)
  exact ⟨h.2.1, h.2.2 41⟩

/-- C4, counterexample: the snapshot callback computes `data.count || 0`,
which only defaults *falsy* values to 0; a document existing with a truthy
malformed `count` (here the string `"many"`) is mirrored as-is, so the
LocalMirror is not set to 0 as the claim states. -/
theorem c4_malformed_count_counterexample :
    (run ⟨true, none, none⟩
      [Event.authCallback none,
       Event.snapshotPush (some { count := JsValue.str "many" })]).viewCount =
      JsValue.str "many" ∧
    JsValue.str "many" ≠ JsValue.num 0 ∧
    docCount (some { count := JsValue.str "many" }) = none := by
  refine ⟨rfl, by decide, rfl⟩

/-- C4 (amended): on every push while subscribed the LocalMirror becomes
`snapshotMirror` of the delivered snapshot; a missing document yields 0, a
numeric `count = N` yields `N`, an absent or otherwise falsy `count`
(`undefined`, `null`, `0`, `""`, `false`) yields 0, but a truthy
non-numeric `count` is mirrored unchanged rather than defaulted to 0. -/
theorem c4_mirror_amended (c : Config) (es : List Event) (snap : Option DocData)
    (hsub : (run c es).subActive = true) :
    (handleEvent c (run c es) (Event.snapshotPush snap)).viewCount =
      snapshotMirror snap ∧
    snapshotMirror none = JsValue.num 0 ∧
    (∀ n : Int, snapshotMirror (some { count := JsValue.num n }) = JsValue.num n) ∧
    (∀ v : JsValue, v.truthy = false →
      snapshotMirror (some { count := v }) = JsValue.num 0) ∧
    (∀ v : JsValue, v.truthy = true →
      snapshotMirror (some { count := v }) = v) := by
  refine ⟨?_, rfl, ?_, ?_, ?_⟩
  · simp only [handleEvent]
    rw [if_pos hsub]
  · intro n
    by_cases hn : n = 0
    · subst hn; rfl
    · simp [snapshotMirror, jsOr, JsValue.truthy, hn]
  · intro v hv
    simp [snapshotMirror, jsOr, hv]
  · intro v hv
    simp [snapshotMirror, jsOr, hv]

theorem c4_mirror_amended_witness :
    (handleEvent ⟨true, none, none⟩ (run ⟨true, none, none⟩ [Event.authCallback none])
      (Event.snapshotPush (some { count := JsValue.num 41 }))).viewCount =
      snapshotMirror (some { count := JsValue.num 41 }) ∧
    snapshotMirror (some { count := JsValue.num 41 }) = JsValue.num 41 := by
  have h := c4_mirror_amended ⟨true, none, none⟩ [Event.authCallback none]
    (some { count := JsValue.num 41 }) (by decide)
  exact ⟨h.1, h.2.2.1 41⟩

/-- C5: with the store access key missing from the configuration, the
subsystem logs the configuration error (and nothing else), the
ReadinessFlag still becomes true, the LocalMirror stays at its default 0,
no increment write is ever attempted and no subscription ever opens — for
every possible continuation of the process. -/
theorem c5_config_missing_disabled (tok aid : Option String) (es : List Event) :
    (run ⟨false, tok, aid⟩ es).isAuthReady = true ∧
    (run ⟨false, tok, aid⟩ es).log = [LogMsg.configMissing] ∧
    (run ⟨false, tok, aid⟩ es).viewCount = JsValue.num 0 ∧
    (run ⟨false, tok, aid⟩ es).writes = [] ∧
    (run ⟨false, tok, aid⟩ es).subActive = false := by
  have hInv := inv_run ⟨false, tok, aid⟩ es
  obtain ⟨hready, hvc, hlog, _⟩ := hInv.no_config rfl
  refine ⟨hready, hlog, hvc, ?_, ?_⟩
  · rw [hInv.writes_eq, hInv.db_eq]
    simp
  · rw [hInv.sub_eq, hInv.db_eq]
    simp

/-- C6: if the identity-bootstrap attempt fails (its promise rejects, never
resolves) and the auth listener delivers only `null` users, the failure is
logged, the ReadinessFlag still becomes true, SessionIdentity remains
absent, the increment write is still issued (it needs only readiness and a
resolvable path, not a resolved identity), and the capability gate reports
not elevated. -/
theorem c6_bootstrap_failure (tok aid : Option String) (es : List Event)
    (hok : Event.authSettleOk ∉ es)
    (herr : Event.authSettleErr ∈ es)
    (hcb : Event.authCallback none ∈ es)
    (hnone : ∀ u : String, Event.authCallback (some u) ∉ es) :
    LogMsg.authInitFailed ∈ (run ⟨true, tok, aid⟩ es).log ∧
    (run ⟨true, tok, aid⟩ es).isAuthReady = true ∧
    (run ⟨true, tok, aid⟩ es).userId = none ∧
    (run ⟨true, tok, aid⟩ es).writes = [WriteOp.setMergeIncrementCount 1] ∧
    isLoggedIn (run ⟨true, tok, aid⟩ es) = false := by
  have hmount := inv_mount ⟨true, tok, aid⟩
  have hInv := inv_run ⟨true, tok, aid⟩ es
  have hready : (run ⟨true, tok, aid⟩ es).isAuthReady = true := by
    unfold run
    exact foldl_ready_of_callback _ es (mount _) (by rw [hmount.listener_eq]) ⟨none, hcb⟩
  have huid : (run ⟨true, tok, aid⟩ es).userId = none := by
    unfold run
    exact foldl_userId_none _ es (mount _) hnone (mount_userId _)
  have hlog : LogMsg.authInitFailed ∈ (run ⟨true, tok, aid⟩ es).log := by
    unfold run
    refine foldl_settleErr_logs _ es (mount _) (by rw [hmount.attempted_eq]) ?_ hok herr
    intro hs
    rw [mount_authSettled] at hs
    cases hs
  refine ⟨hlog, hready, huid, ?_, ?_⟩
  · rw [hInv.writes_eq, hInv.db_eq, hready]
    simp
  · simp [isLoggedIn, huid]

theorem c6_bootstrap_failure_witness :
    LogMsg.authInitFailed ∈
      (run ⟨true, none, none⟩ [Event.authSettleErr, Event.authCallback none]).log ∧
    (run ⟨true, none, none⟩ [Event.authSettleErr, Event.authCallback none]).writes =
      [WriteOp.setMergeIncrementCount 1] ∧
    isLoggedIn (run ⟨true, none, none⟩ [Event.authSettleErr, Event.authCallback none]) =
      false := by
  have h := c6_bootstrap_failure none none [Event.authSettleErr, Event.authCallback none]
    (by decide) (by decide) (by decide) (fun u => by simp)
  exact ⟨h.1, h.2.2.2.1, h.2.2.2.2⟩

/-- C7, counterexample: with the ReadinessFlag true and the counter-document
path unresolvable (missing configuration, so no store handle), the track
effect does execute and skip — the ghost counter records two guard returns —
yet the log holds only the initialisation-time configuration error: the
skip itself emits no log entry, and re-executing the effect body on this
state leaves the log unchanged.  This contradicts "the skip is logged". -/
theorem c7_skip_unlogged_counterexample :
    (mount ⟨false, none, none⟩).isAuthReady = true ∧
    analyticsDocPath ⟨false, none, none⟩ (mount ⟨false, none, none⟩).db = none ∧
    (mount ⟨false, none, none⟩).trackGuardSkips = 2 ∧
    (mount ⟨false, none, none⟩).log = [LogMsg.configMissing] ∧
    (runTrackEffect ⟨false, none, none⟩ (mount ⟨false, none, none⟩)).log =
      (mount ⟨false, none, none⟩).log := by
  refine ⟨rfl, rfl, rfl, rfl, rfl⟩

/-- C7 (amended): when auth readiness has not arrived or the counter
document path is not resolvable, the increment is skipped entirely — no
write is issued and it is not retried — but the skip itself emits no log
entry; with the configuration missing, the only log line ever present is
the configuration error recorded once at initialisation. -/
theorem c7_skip_silent_amended (c : Config) (s : AppState)
    (h : s.isAuthReady = false ∨ analyticsDocPath c s.db = none) :
    (runTrackEffect c s).writes = s.writes ∧
    (runTrackEffect c s).log = s.log ∧
    (runTrackEffect c s).trackGuardSkips = s.trackGuardSkips + 1 ∧
    (∀ (tok aid : Option String) (es : List Event),
      (run ⟨false, tok, aid⟩ es).writes = [] ∧
      (run ⟨false, tok, aid⟩ es).log = [LogMsg.configMissing]) := by
  refine ⟨?_, ?_, ?_, ?_⟩
  · unfold runTrackEffect; rw [if_pos h]
  · unfold runTrackEffect; rw [if_pos h]
  · unfold runTrackEffect; rw [if_pos h]
  · intro tok aid es
    have hInv := inv_run ⟨false, tok, aid⟩ es
    obtain ⟨_, _, hlog, _⟩ := hInv.no_config rfl
    refine ⟨?_, hlog⟩
    rw [hInv.writes_eq, hInv.db_eq]
    simp

theorem c7_skip_silent_amended_witness :
    (runTrackEffect ⟨false, none, none⟩ (mount ⟨false, none, none⟩)).writes =
      (mount ⟨false, none, none⟩).writes ∧
    (run ⟨false, none, none⟩ [Event.snapshotPush none]).writes = [] := by
  have h := c7_skip_silent_amended ⟨false, none, none⟩ (mount ⟨false, none, none⟩)
    (by decide)
  exact ⟨h.1, (h.2.2.2 none none [Event.snapshotPush none]).1⟩

/-- C8: the mock login and sign-out handlers affect only whether the
SessionIdentity is present.  `handleLogin` changes nothing in the counter
subsystem at all (not even `userId` — it merely toasts and closes the
form), and its outcome depends on the entered credentials only through
equality with the two hardcoded literals; `handleSignOut` changes no
counter-subsystem field, and the `null` auth push that completes the
sign-out clears only the SessionIdentity. -/
theorem c8_login_logout_frame (c : Config) (es : List Event)
    (e1 p1 e2 p2 : String) :
    ((handleEvent c (run c es) (Event.loginSubmit e1 p1)).userId = (run c es).userId ∧
     (handleEvent c (run c es) (Event.loginSubmit e1 p1)).isAuthReady = (run c es).isAuthReady ∧
     (handleEvent c (run c es) (Event.loginSubmit e1 p1)).viewCount = (run c es).viewCount ∧
     (handleEvent c (run c es) (Event.loginSubmit e1 p1)).writes = (run c es).writes ∧
     (handleEvent c (run c es) (Event.loginSubmit e1 p1)).subActive = (run c es).subActive ∧
     (handleEvent c (run c es) (Event.loginSubmit e1 p1)).log = (run c es).log) ∧
    ((e1 = MOCK_ADMIN_EMAIL ∧ p1 = MOCK_ADMIN_PASSWORD ↔
      e2 = MOCK_ADMIN_EMAIL ∧ p2 = MOCK_ADMIN_PASSWORD) →
      handleEvent c (run c es) (Event.loginSubmit e1 p1) =
        handleEvent c (run c es) (Event.loginSubmit e2 p2)) ∧
    ((handleEvent c (run c es) Event.signOutClick).userId = (run c es).userId ∧
     (handleEvent c (run c es) Event.signOutClick).viewCount = (run c es).viewCount ∧
     (handleEvent c (run c es) Event.signOutClick).writes = (run c es).writes ∧
     (handleEvent c (run c es) Event.signOutClick).subActive = (run c es).subActive ∧
     (handleEvent c (run c es) Event.signOutClick).log = (run c es).log) ∧
    ((run c es).isAuthReady = true →
      (handleEvent c (handleEvent c (run c es) Event.signOutClick)
        (Event.authCallback none)).userId = none ∧
      (handleEvent c (handleEvent c (run c es) Event.signOutClick)
        (Event.authCallback none)).viewCount = (run c es).viewCount ∧
      (handleEvent c (handleEvent c (run c es) Event.signOutClick)
        (Event.authCallback none)).writes = (run c es).writes ∧
      (handleEvent c (handleEvent c (run c es) Event.signOutClick)
        (Event.authCallback none)).subActive = (run c es).subActive) := by
  have hInv := inv_run c es
  refine ⟨?_, ?_, ?_, ?_⟩
  · simp only [handleEvent]
    split_ifs <;> simp
  · intro hiff
    simp only [handleEvent]
    by_cases hg : (run c es).isLoggingIn = true ∨ (run c es).auth = false
    · rw [if_pos hg, if_pos hg]
    · rw [if_neg hg, if_neg hg]
      by_cases hacc : e1 = MOCK_ADMIN_EMAIL ∧ p1 = MOCK_ADMIN_PASSWORD
      · have hacc2 := hiff.mp hacc
        rw [if_neg (by simp [hacc.1, hacc.2]), if_neg (by simp [hacc2.1, hacc2.2])]
      · have hacc2 : ¬(e2 = MOCK_ADMIN_EMAIL ∧ p2 = MOCK_ADMIN_PASSWORD) :=
          fun hx => hacc (hiff.mpr hx)
        rw [if_pos (not_and_or.mp hacc), if_pos (not_and_or.mp hacc2)]
  · simp only [handleEvent]
    split_ifs <;> simp
  · intro hready
    obtain ⟨hOuid, hOready, hOvc, hOwr, hOsub, hOlog, hOdb, hOlis, hOdeps⟩ :=
      handleEvent_signOut_fields c (run c es)
    obtain ⟨h1, h2, h3, h4⟩ := authCallbackNone_after c (run c es)
      (handleEvent c (run c es) Event.signOutClick) hInv hready hOdb hOlis hOdeps hOuid
    exact ⟨h1, h2.trans hOvc, h3.trans hOwr, h4.trans hOsub⟩

theorem c8_login_logout_frame_witness :
    handleEvent ⟨true, none, none⟩ (run ⟨true, none, none⟩ [Event.authCallback (some "u1")])
        (Event.loginSubmit "a" "b") =
      handleEvent ⟨true, none, none⟩ (run ⟨true, none, none⟩ [Event.authCallback (some "u1")])
        (Event.loginSubmit "x" "y") ∧
    (handleEvent ⟨true, none, none⟩
      (handleEvent ⟨true, none, none⟩ (run ⟨true, none, none⟩ [Event.authCallback (some "u1")])
        Event.signOutClick) (Event.authCallback none)).userId = none := by
  have h := c8_login_logout_frame ⟨true, none, none⟩ [Event.authCallback (some "u1")]
    "a" "b" "x" "y"
  exact ⟨h.2.1 (by decide), (h.2.2.2 (by decide)).1⟩

/-- C9: the stored counter only ever increases under this subsystem: every
write it ever issues is the atomic increment by one (creating the document
at `count = 1` when absent, taking `count = n` to `count = n + 1`
otherwise), and the subscription/mirror path — including the push that
observes a non-existent document — issues no write at all. -/
theorem c9_only_increment_writes (c : Config) (es : List Event)
    (snap : Option DocData) (w : WriteOp) (hw : w ∈ (run c es).writes) :
    w = WriteOp.setMergeIncrementCount 1 ∧
    (handleEvent c (run c es) (Event.snapshotPush snap)).writes = (run c es).writes ∧
    (handleEvent c (run c es) Event.snapshotFail).writes = (run c es).writes ∧
    docCount (applyWrite w none) = some 1 ∧
    (∀ (d : Option DocData) (n : Int), docCount d = some n →
      docCount (applyWrite w d) = some (n + 1) ∧ n < n + 1) := by
  have hw1 := mem_run_writes c es w hw
  subst hw1
  refine ⟨rfl, ?_, ?_, rfl, ?_⟩
  · simp only [handleEvent]
    split_ifs <;> rfl
  · simp only [handleEvent]
    split_ifs <;> rfl
  · intro d n hd
    cases d with
    | none => simp [docCount] at hd
    | some dd =>
      cases hdc : dd.count with
      | num m =>
        have hm : m = n := by simpa [docCount, hdc] using hd
        subst hm
        constructor
        · simp [applyWrite, applyIncrement, hdc, docCount]
        · omega
      | str sv => simp [docCount, hdc] at hd
      | boolV bv => simp [docCount, hdc] at hd
      | undef => simp [docCount, hdc] at hd
      | nullV => simp [docCount, hdc] at hd

theorem c9_only_increment_writes_witness :
    docCount (applyWrite (WriteOp.setMergeIncrementCount 1)
      (some { count := JsValue.num 41 })) = some 42 ∧
    docCount (applyWrite (WriteOp.setMergeIncrementCount 1) none) = some 1 := by
  have h := c9_only_increment_writes ⟨true, none, none⟩ [Event.authCallback none]
    none (WriteOp.setMergeIncrementCount 1) (by decide)
  refine ⟨?_, h.2.2.2.1⟩
  have h41 := (h.2.2.2.2 (some { count := JsValue.num 41 }) 41 rfl).1
  simpa using h41

/-- C10: signing out leaves the view-counting state untouched: from any
reachable state, the sign-out click changes neither the LocalMirror nor the
standing subscription (nor the issued writes), the `null` auth push that
completes the sign-out still leaves them unchanged, and a subsequent
snapshot push still updates the mirrored count. -/
theorem c10_signout_counter_frame (c : Config) (es : List Event)
    (snap : Option DocData) :
    (handleEvent c (run c es) Event.signOutClick).viewCount = (run c es).viewCount ∧
    (handleEvent c (run c es) Event.signOutClick).subActive = (run c es).subActive ∧
    (handleEvent c (run c es) Event.signOutClick).writes = (run c es).writes ∧
    ((run c es).isAuthReady = true →
      (handleEvent c (handleEvent c (run c es) Event.signOutClick)
        (Event.authCallback none)).viewCount = (run c es).viewCount ∧
      (handleEvent c (handleEvent c (run c es) Event.signOutClick)
        (Event.authCallback none)).subActive = (run c es).subActive ∧
      ((run c es).subActive = true →
        (handleEvent c
          (handleEvent c (handleEvent c (run c es) Event.signOutClick)
            (Event.authCallback none)) (Event.snapshotPush snap)).viewCount =
          snapshotMirror snap)) := by
  have hInv := inv_run c es
  obtain ⟨hOuid, hOready, hOvc, hOwr, hOsub, hOlog, hOdb, hOlis, hOdeps⟩ :=
    handleEvent_signOut_fields c (run c es)
  refine ⟨hOvc, hOsub, hOwr, ?_⟩
  intro hready
  obtain ⟨h1, h2, h3, h4⟩ := authCallbackNone_after c (run c es)
    (handleEvent c (run c es) Event.signOutClick) hInv hready hOdb hOlis hOdeps hOuid
  refine ⟨h2.trans hOvc, h4.trans hOsub, ?_⟩
  intro hsubT
  have hsub2 : (handleEvent c (handleEvent c (run c es) Event.signOutClick)
      (Event.authCallback none)).subActive = true := by
    rw [h4, hOsub, hsubT]
  generalize hT : handleEvent c (handleEvent c (run c es) Event.signOutClick)
    (Event.authCallback none) = T at hsub2 ⊢
  simp only [handleEvent]
  rw [if_pos hsub2]

theorem c10_signout_counter_frame_witness :
    (handleEvent ⟨true, none, none⟩
      (handleEvent ⟨true, none, none⟩
        (handleEvent ⟨true, none, none⟩ (run ⟨true, none, none⟩ [Event.authCallback none])
          Event.signOutClick) (Event.authCallback none))
      (Event.snapshotPush (some { count := JsValue.num 7 }))).viewCount =
      snapshotMirror (some { count := JsValue.num 7 }) := by
  have h := c10_signout_counter_frame ⟨true, none, none⟩ [Event.authCallback none]
    (some { count := JsValue.num 7 })
  exact (h.2.2.2 (by decide)).2.2 (by decide)

end CurrentVibes
